import Mathlib

/-
Verification development for the Insights-Scraper module orchestration engine.

Shallow embedding of the module subsystem:
  src/modules/base-module.js        (BaseModule contract)
  src/modules/module-manager.js     (ModuleManager: registry + orchestration loop)
  src/modules/sandboxes-module.js   (HealthCheckModule scrape retry loops, formatData)
  src/modules/sensitive-data-module.js (SensitiveDataModule)
  background service worker         (startExtraction / cancelExtraction)

Modelling conventions:
  - JavaScript exceptions become Except String.
  - A module instance is a record of the outcomes its methods produce in one
    run: initResult models initialize() (either resolves or throws),
    validateResult models validate(), scrapeResult models scrape(context).
    The context is fixed for a run, so scrape is modelled by its outcome.
  - The expression new Date().toLocaleString() that several formatData
    methods interpolate is modelled by an explicit clock-reading argument.
  - Wall-clock delays (await delay(ms)) are recorded as a list of the
    millisecond values passed to delay, so that statements about retry
    pacing can be made without modelling real time.
  - console logging and the debug fetch beacons are side effects with no
    data flow into results and are not modelled.
-/

namespace Scraper

/-- JavaScript a || b for strings: the empty string is falsy. -/
def jsOr (a b : String) : String := if a = "" then b else a

/-- JavaScript truthiness of an optional string (undefined and the empty
string are falsy). -/
def jsTruthy : Option String → Bool
  | none => false
  | some s => !(s == "")

/-- JavaScript String.prototype.trim: strip whitespace from both ends. -/
def jsTrim (s : String) : String :=
  String.mk (((s.data.dropWhile Char.isWhitespace).reverse.dropWhile
    Char.isWhitespace).reverse)

/-- Verdict returned by a module validate() method:
a valid flag plus an optional human-readable message. -/
structure Validation where
  valid : Bool
  message : Option String
deriving Repr, DecidableEq

/-- Structured payload stored in a Module Result (module-manager.js).
On success it is getJsonPayload(data) when the module has that method,
otherwise the raw data itself; on failure it is the object holding just
the error message (module-manager.js line 211). -/
inductive JsonPayload (D P : Type) where
  | payload (p : P)
  | raw (d : D)
  | errorObj (msg : String)
deriving DecidableEq

/-- One extraction module, as the ModuleManager sees it (base-module.js).
D is the type of raw scraped data, P the type of structured payloads. -/
structure Module (D P : Type) where
  name : String
  description : String
  isEnabled : Bool
  /-- Outcome of initialize(): ok, or a thrown error message. -/
  initResult : Except String Unit
  /-- Outcome of validate(): a verdict, or a thrown error message. -/
  validateResult : Except String Validation
  /-- Outcome of scrape(context) for the run at hand. -/
  scrapeResult : Except String D
  /-- formatData(data), raw data to formatted text. -/
  formatData : D → String
  /-- getFilename(); every module in the source returns a constant. -/
  getFilename : String
  /-- getJsonPayload, when the module defines one (the manager checks
  typeof module.getJsonPayload before calling it). -/
  getJsonPayload : Option (D → P)
  /-- getDateFormat(), when the module defines one. -/
  getDateFormat : Option String

/-- Module Result collected by executeEnabledModules
(module-manager.js lines 163-178 and 204-217). -/
structure JsResult (D P : Type) where
  moduleId : String
  moduleName : String
  data : String
  filename : String
  success : Bool
  error : Option String
  rawData : Option D
  jsonPayload : JsonPayload D P
  dateFormat : Option String
deriving DecidableEq

/-- Central module registry and orchestrator state (module-manager.js).
The Map of modules is embedded as an association list in insertion order;
executionOrder is the order stored by the last enableModules call. -/
structure ModuleManager (D P : Type) where
  modules : List (String × Module D P)
  executionOrder : List String

namespace ModuleManager

variable {D P : Type}

/-- registerModule (module-manager.js lines 21-27): Map.set semantics,
overwrite in place when the id is present, else append; an existing id is
only warned about, never rejected. -/
def registerModule (mm : ModuleManager D P) (id : String) (m : Module D P) :
    ModuleManager D P :=
  if mm.modules.any (fun p => p.1 == id) then
    { mm with modules := mm.modules.map (fun p => if p.1 == id then (p.1, m) else p) }
  else
    { mm with modules := mm.modules ++ [(id, m)] }

/-- getModule (module-manager.js lines 34-36). -/
def getModule (mm : ModuleManager D P) (id : String) : Option (Module D P) :=
  (mm.modules.find? (fun p => p.1 == id)).map (fun p => p.2)

/-- getAllModules (module-manager.js lines 42-48). -/
def getAllModules (mm : ModuleManager D P) : List (String × Module D P) :=
  mm.modules

/-- Helper for module.enable() and module.disable() applied to the entry
stored under a given id. -/
def setEnabled (ms : List (String × Module D P)) (id : String) (b : Bool) :
    List (String × Module D P) :=
  ms.map (fun p => if p.1 == id then (p.1, { p.2 with isEnabled := b }) else p)

/-- Loop over this.modules.values() calling disable() on each
(module-manager.js lines 56-58). -/
def disableAll (ms : List (String × Module D P)) : List (String × Module D P) :=
  ms.map (fun p => (p.1, { p.2 with isEnabled := false }))

/-- Body of the enableModules loop (module-manager.js lines 64-73): a known
id is enabled and appended to executionOrder, an unknown id is skipped with
only a warning. -/
def enableStep (mm : ModuleManager D P) (id : String) : ModuleManager D P :=
  match mm.modules.find? (fun p => p.1 == id) with
  | some _ =>
      { modules := setEnabled mm.modules id true,
        executionOrder := mm.executionOrder ++ [id] }
  | none => mm

/-- enableModules (module-manager.js lines 54-74): disable everything,
reset executionOrder, then enable the requested ids in order. -/
def enableModules (mm : ModuleManager D P) (ids : List String) : ModuleManager D P :=
  ids.foldl enableStep { modules := disableAll mm.modules, executionOrder := [] }

/-- getEnabledModules (module-manager.js lines 80-90): walk executionOrder,
keep ids whose stored module exists and is enabled. -/
def getEnabledModules (mm : ModuleManager D P) : List (String × Module D P) :=
  mm.executionOrder.filterMap (fun id =>
    match mm.modules.find? (fun p => p.1 == id) with
    | some p => if p.2.isEnabled then some (id, p.2) else none
    | none => none)

end ModuleManager

variable {D P : Type}

/-- Combined outcome of the try-block steps initialize, validate, scrape in
executeEnabledModules (module-manager.js lines 125-147): the first throw
wins; an invalid verdict throws validation.message or, when that is absent
or empty (falsy), the fixed text used at line 130. -/
def Module.runOutcome (m : Module D P) : Except String D :=
  match m.initResult with
  | .error e => .error e
  | .ok _ =>
    match m.validateResult with
    | .error e => .error e
    | .ok v =>
      if v.valid then m.scrapeResult
      else .error (match v.message with
        | some s => if s = "" then "Module validation failed" else s
        | none => "Module validation failed")

/-- Per-module body of executeEnabledModules (module-manager.js lines
110-225): on success the result carries the formatted text, the raw data
and the structured payload; on any throw the result carries success false,
the error message, formatted text Error: message, and the error-object
payload. -/
def execModule (id : String) (m : Module D P) : JsResult D P :=
  match m.runOutcome with
  | .ok d =>
      { moduleId := id
        moduleName := m.name
        data := m.formatData d
        filename := m.getFilename
        success := true
        error := none
        rawData := some d
        jsonPayload :=
          match m.getJsonPayload with
          | some f => .payload (f d)
          | none => .raw d
        dateFormat := m.getDateFormat }
  | .error e =>
      { moduleId := id
        moduleName := m.name
        data := "Error: " ++ e
        filename := m.getFilename
        success := false
        error := some e
        rawData := none
        jsonPayload := .errorObj e
        dateFormat := m.getDateFormat }

/-- Lifecycle events handed to the progress and completion callbacks. -/
inductive RunEvent (D P : Type) where
  | started (moduleId moduleName : String) (current total : Nat)
  | completed (r : JsResult D P)

/-- The for-loop of executeEnabledModules over the enabled list, carrying
the current counter and the fixed total; returns the collected results and
the emitted event trace in order. -/
def execLoop : List (String × Module D P) → Nat → Nat →
    List (JsResult D P) × List (RunEvent D P)
  | [], _, _ => ([], [])
  | (id, m) :: rest, current, total =>
    let cur := current + 1
    let r := execModule id m
    let rec_ := execLoop rest cur total
    (r :: rec_.1, .started id m.name cur total :: .completed r :: rec_.2)

/-- executeEnabledModules (module-manager.js lines 99-233). -/
def ModuleManager.executeEnabledModules (mm : ModuleManager D P) :
    List (JsResult D P) × List (RunEvent D P) :=
  execLoop mm.getEnabledModules 0 mm.getEnabledModules.length

/-- Caller-side run wrapper modelling startExtraction in the background
service worker: the manager run produces the results; the completion
callback reacts to the result for module index i (downloading its file)
only when the job cancelled flag is not set at that point. The cancelled
flag is read exclusively inside the callbacks; executeEnabledModules never
consults it. cancelledAt i gives the flag value observed when the
callback for the i-th result runs. -/
def startExtractionModel (mm : ModuleManager D P) (cancelledAt : Nat → Bool) :
    List (JsResult D P) × List String :=
  let results := (mm.executeEnabledModules).1
  let downloads := (List.range results.length).filterMap (fun i =>
    if cancelledAt i then none
    else (results[i]?).map (fun r => r.filename ++ ".json"))
  (results, downloads)

/-
Health Check module (HealthCheckModule in src/modules/sandboxes-module.js,
second document of the bundle): data shape, the no-data heuristic, the
readiness polling loop of step 4 and the scrape retry loop of step 5.
-/

/-- One parsed security-setting row (scrapeHealthCheckDataFunc parseRows
always materialises all five columns as strings, possibly empty). -/
structure HCSetting where
  status : String
  setting : String
  group : String
  yourValue : String
  standardValue : String
deriving Repr, DecidableEq

/-- One scraped section table: title plus its settings rows. -/
structure HCTable where
  title : String
  settings : List HCSetting
deriving Repr, DecidableEq

/-- Raw data returned by scrapeHealthCheckDataFunc: the score string, the
four risk sections, the flat settings list, the per-table breakdown, and
the error field set only when the in-page scraper caught an exception. -/
structure HCData where
  percentage : String
  highRisk : List HCSetting
  mediumRisk : List HCSetting
  lowRisk : List HCSetting
  informational : List HCSetting
  settings : List HCSetting
  tables : List HCTable
  error : Option String
deriving Repr, DecidableEq

/-- looksLikeNoData (sandboxes-module.js lines 329-335): a missing value,
or a placeholder score (0 percent, N/A, or empty after trim) together with
zero rows in settings, highRisk and mediumRisk. -/
def looksLikeNoData : Option HCData → Bool
  | none => true
  | some d =>
    let pct := jsTrim d.percentage
    let hasRows := decide (d.settings.length > 0) || decide (d.highRisk.length > 0)
      || decide (d.mediumRisk.length > 0)
    (pct == "0%" || pct == "N/A" || pct == "") && !hasRows

/-- Condition under which attempt handling rejects with a scraping error
(sandboxes-module.js line 358): the in-page scraper reported an error and
no settings rows came back. -/
def hcErrorExit (d : HCData) : Bool :=
  jsTruthy d.error && d.settings.length == 0

/-- MAX_SCRAPE_ATTEMPTS (sandboxes-module.js line 326). -/
def MAX_SCRAPE_ATTEMPTS : Nat := 3

/-- RETRY_WAIT_MS (sandboxes-module.js line 327). -/
def RETRY_WAIT_MS : Nat := 10000

/-- Step 5 scrape-with-retry for-loop (sandboxes-module.js lines 338-374).
probe a gives the page-probe outcome of attempt number a (none models
dataResult carrying no result, which rejects). Returns the resolved data
or the rejection message, the number of the attempt on which the loop
stopped, and the list of delay values awaited between attempts. -/
def scrapeAttempts (probe : Nat → Option HCData) (attempt : Nat) :
    Except String HCData × Nat × List Nat :=
  match probe attempt with
  | none => (Except.error "Failed to scrape health check data - no data returned",
             attempt, [])
  | some d =>
    if hcErrorExit d then
      (Except.error ("Health check scraping error: " ++ d.error.getD ""), attempt, [])
    else if looksLikeNoData (some d) = false then
      (Except.ok d, attempt, [])
    else if h : attempt < MAX_SCRAPE_ATTEMPTS then
      let r := scrapeAttempts probe (attempt + 1)
      (r.1, r.2.1, RETRY_WAIT_MS :: r.2.2)
    else
      (Except.ok d, attempt, [])
termination_by MAX_SCRAPE_ATTEMPTS - attempt
decreasing_by omega

/-- maxRetries of the table readiness check (sandboxes-module.js line 289). -/
def MAX_TABLE_RETRIES : Nat := 6

/-- Delay between readiness checks (sandboxes-module.js line 306). -/
def TABLE_RETRY_WAIT_MS : Nat := 5000

/-- Step 4 readiness polling while-loop (sandboxes-module.js lines 287-307).
ready n gives the outcome of the n-th table check. Returns tablesFound,
the final retryCount, and the delays awaited between checks. -/
def tableCheckLoop (ready : Nat → Bool) (retryCount : Nat) :
    Bool × Nat × List Nat :=
  if h : retryCount < MAX_TABLE_RETRIES then
    if ready (retryCount + 1) then (true, retryCount + 1, [])
    else if retryCount + 1 < MAX_TABLE_RETRIES then
      let r := tableCheckLoop ready (retryCount + 1)
      (r.1, r.2.1, TABLE_RETRY_WAIT_MS :: r.2.2)
    else (false, retryCount + 1, [])
  else (false, retryCount, [])
termination_by MAX_TABLE_RETRIES - retryCount
decreasing_by omega

/-- Steps 4 and 5 of HealthCheckModule.scrape composed (sandboxes-module.js
lines 285-381): poll for table readiness, then scrape with retry. When the
tables are never found the code only logs a warning and skips the
expand-and-settle delays; the scrape itself runs either way, so the
returned value records the scrape outcome next to the readiness outcome. -/
def healthCheckScrape (ready : Nat → Bool) (probe : Nat → Option HCData) :
    Except String HCData × (Bool × Nat) :=
  let t := tableCheckLoop ready 0
  let s := scrapeAttempts probe 1
  (s.1, (t.1, t.2.1))

/-
Formatted reports. The JavaScript interpolates new Date().toLocaleString()
into a Generated line; that clock reading is the explicit first argument.
-/

/-- JavaScript s.repeat(n). -/
def jsRepeat (s : String) (n : Nat) : String := String.join (List.replicate n s)

/-- headerRow local constant of HealthCheckModule.formatData (line 399). -/
def hcHeaderRow : String := "STATUS\tSETTING\tGROUP\tYOUR VALUE\tSTANDARD VALUE\n"

/-- rowToLine local function of HealthCheckModule.formatData (line 400). -/
def hcRowToLine (s : HCSetting) : String :=
  jsOr s.status "N/A" ++ "\t" ++ jsOr s.setting "N/A" ++ "\t" ++ jsOr s.group "N/A"
    ++ "\t" ++ jsOr s.yourValue "N/A" ++ "\t" ++ jsOr s.standardValue "N/A" ++ "\n"

/-- Divider line written before and after each section title. -/
def hcDivider : String := jsRepeat "=" 100 ++ "\n"

/-- Block emitted per scraped table (sandboxes-module.js lines 403-411). -/
def hcTableBlock (t : HCTable) : String :=
  hcDivider ++ String.mk ((jsOr t.title "Security Settings").data.map Char.toUpper) ++ "\n"
    ++ hcDivider ++ "\n" ++ hcHeaderRow
    ++ String.join (t.settings.map hcRowToLine) ++ "\n"

/-- Block emitted per fixed risk section (sandboxes-module.js lines 419-427). -/
def hcSectionBlock (title : String) (rows : List HCSetting) : String :=
  hcDivider ++ title ++ "\n" ++ hcDivider ++ "\n" ++ hcHeaderRow
    ++ String.join (rows.map hcRowToLine) ++ "\n"

/-- HealthCheckModule.formatData (sandboxes-module.js lines 391-432), with
the new Date().toLocaleString() reading passed as the first argument. -/
def HealthCheckModule.formatData (now : String) (data : HCData) : String :=
  "HEALTH CHECK REPORT\n"
  ++ "Generated: " ++ now ++ "\n"
  ++ "Health Check Score: " ++ jsOr data.percentage "N/A" ++ "\n"
  ++ "\n"
  ++ (if data.tables.length > 0 then
        String.join (data.tables.map hcTableBlock)
      else
        hcSectionBlock "HIGH-RISK SECURITY SETTINGS" data.highRisk
        ++ hcSectionBlock "MEDIUM-RISK SECURITY SETTINGS" data.mediumRisk
        ++ hcSectionBlock "LOW-RISK SECURITY SETTINGS" data.lowRisk
        ++ hcSectionBlock "INFORMATIONAL SECURITY SETTINGS" data.informational)

/-- Everything HealthCheckModule.formatData emits after the Generated line;
defined separately (not in terms of formatData) so the clock-dependence of
formatData can be isolated in a theorem. -/
def HealthCheckModule.formatBody (data : HCData) : String :=
  "Health Check Score: " ++ jsOr data.percentage "N/A" ++ "\n"
  ++ "\n"
  ++ (if data.tables.length > 0 then
        String.join (data.tables.map hcTableBlock)
      else
        hcSectionBlock "HIGH-RISK SECURITY SETTINGS" data.highRisk
        ++ hcSectionBlock "MEDIUM-RISK SECURITY SETTINGS" data.mediumRisk
        ++ hcSectionBlock "LOW-RISK SECURITY SETTINGS" data.lowRisk
        ++ hcSectionBlock "INFORMATIONAL SECURITY SETTINGS" data.informational)

/-- Raw data produced by SensitiveDataModule.scrape
(sensitive-data-module.js lines 15-19): always this exact record. -/
structure SDData where
  status : String
  message : String
  timestamp : String
deriving Repr, DecidableEq

/-- SensitiveDataModule.formatData (sensitive-data-module.js lines 22-30).
It interpolates only fields of the raw data and reads no clock. -/
def SensitiveDataModule.formatData (data : SDData) : String :=
  "SENSITIVE DATA REPORT\n"
  ++ jsRepeat "=" 80 ++ "\n\n"
  ++ "Status: " ++ data.status ++ "\n"
  ++ "Message: " ++ data.message ++ "\n"
  ++ "Timestamp: " ++ data.timestamp ++ "\n\n"
  ++ "This module is a placeholder and will be implemented in a future update.\n"

/-
Filenames. BaseModule.getFilename (base-module.js lines 57-59) lowercases
the display name and replaces each whitespace run by a dash; every module
except SensitiveDataModule overrides it with a literal.
-/

/-- Replace each maximal whitespace run by a single dash, as the regular
expression replace of base-module.js line 58 does; the flag records
whether the previous character was whitespace. -/
def wsRunsToDash : Bool → List Char → List Char
  | _, [] => []
  | prevWs, c :: cs =>
    if c.isWhitespace then
      if prevWs then wsRunsToDash true cs
      else '-' :: wsRunsToDash true cs
    else c :: wsRunsToDash false cs

/-- BaseModule.getFilename (base-module.js lines 57-59):
name.toLowerCase().replace of whitespace runs by dashes. -/
def BaseModule.getFilename (name : String) : String :=
  String.mk (wsRunsToDash false (name.data.map Char.toLower))

/-- LicensesModule.getFilename (profiles-module-fixed.js line 692). -/
def LicensesModule.getFilename : String := "1_licenses"

/-- ProfilesModule.getFilename (profiles-module.js line 436). -/
def ProfilesModule.getFilename : String := "2_profiles"

/-- GeneralInfoModule.getFilename (sandboxes-module.js line 1458). -/
def GeneralInfoModule.getFilename : String := "3_general_info"

/-- HealthCheckModule.getFilename (sandboxes-module.js line 448). -/
def HealthCheckModule.getFilename : String := "4_health_check"

/-- StorageModule.getFilename (sandboxes-module.js line 1911). -/
def StorageModule.getFilename : String := "5_storage"

/-- SandboxesModule.getFilename (sandboxes-module.js line 125). -/
def SandboxesModule.getFilename : String := "6_sandboxes"

/-- SharingSettingsModule.getFilename (excel-generator.js). -/
def SharingSettingsModule.getFilename : String := "7_sharing_settings"

/-- SensitiveDataModule does not override getFilename, so it inherits the
name-derived base behaviour applied to its display name Sensitive Data
(sensitive-data-module.js lines 6-9, base-module.js lines 57-59). -/
def SensitiveDataModule.getFilename : String :=
  BaseModule.getFilename "Sensitive Data"

/-- LoginHistoryModule.getFilename (profiles-module-fixed.js line 960). -/
def LoginHistoryModule.getFilename : String := "8_login_history"

/-- The nine modules registered by the background service worker, in
registration order, each with its getFilename value. -/
def registeredModuleFilenames : List (String × String) :=
  [("licenses", LicensesModule.getFilename),
   ("profiles", ProfilesModule.getFilename),
   ("general-info", GeneralInfoModule.getFilename),
   ("health-check", HealthCheckModule.getFilename),
   ("storage", StorageModule.getFilename),
   ("sandboxes", SandboxesModule.getFilename),
   ("sharing-settings", SharingSettingsModule.getFilename),
   ("sensitive-data", SensitiveDataModule.getFilename),
   ("login-history", LoginHistoryModule.getFilename)]

/-- Filename starts with an ordinal marker: a digit followed by an
underscore. -/
def startsWithOrdinal (s : String) : Bool :=
  match s.data with
  | c :: u :: _ => c.isDigit && u == '_'
  | _ => false

/-
Concrete instances used by witnesses, and the enabled-registry invariant.
-/

/-- Witness module whose whole lifecycle succeeds. -/
def mOkW : Module Unit Unit :=
  { name := "Ok Module", description := "", isEnabled := true
    initResult := Except.ok ()
    validateResult := Except.ok { valid := true, message := none }
    scrapeResult := Except.ok ()
    formatData := fun _ => "ok report"
    getFilename := "0_ok"
    getJsonPayload := none
    getDateFormat := none }

/-- Witness module whose scrape throws. -/
def mFailW : Module Unit Unit :=
  { name := "Fail Module", description := "", isEnabled := true
    initResult := Except.ok ()
    validateResult := Except.ok { valid := true, message := none }
    scrapeResult := Except.error "link not found"
    formatData := fun _ => "unused"
    getFilename := "0_fail"
    getJsonPayload := none
    getDateFormat := none }

/-- Concrete no-data scrape result used by the C7 witness: placeholder
score, no rows anywhere, no in-page error. -/
def hcNoDataW : HCData :=
  { percentage := "0%", highRisk := [], mediumRisk := [], lowRisk := []
    informational := [], settings := [], tables := [], error := none }

/-- Concrete registry for the C3 witness: one registered module. -/
def mmW3 : ModuleManager Unit Unit := ⟨[("licenses", mOkW)], []⟩

/-- Concrete manager for the C2 witness: a succeeding module followed by a
module whose scrape throws. -/
def mmW2 : ModuleManager Unit Unit :=
  ⟨[("ok", mOkW), ("fail", mFailW)], ["ok", "fail"]⟩

/-- Every id recorded in executionOrder resolves to a stored, enabled
module. -/
def enabledInv (mm : ModuleManager D P) : Prop :=
  ∀ j ∈ mm.executionOrder, ∃ q, mm.modules.find? (fun p => p.1 == j) = some q
    ∧ q.2.isEnabled = true

/-
Helper lemmas shared by the claim theorems.
-/

theorem find?_map_replace (ms : List (String × Module D P)) (id : String) (m : Module D P)
    (h : ms.any (fun p => p.1 == id) = true) :
    ((ms.map (fun p => if p.1 == id then (p.1, m) else p)).find?
        (fun p => p.1 == id)).map (fun p => p.2) = some m := by
  have hfun : ((fun p : String × Module D P => p.1 == id)
        ∘ (fun p : String × Module D P => if p.1 == id then (p.1, m) else p))
      = (fun p : String × Module D P => p.1 == id) := by
    funext p
    by_cases hp : p.1 = id
    · simp [hp]
    · simp [hp]
  rw [List.find?_map, hfun]
  have hsome : (ms.find? (fun p => p.1 == id)).isSome := by
    rw [List.find?_isSome]
    obtain ⟨q, hq, pq⟩ := List.any_eq_true.mp h
    exact ⟨q, hq, pq⟩
  obtain ⟨q, hq⟩ := Option.isSome_iff_exists.mp hsome
  have pq := List.find?_some hq
  rw [hq]
  have hq1 : q.1 = id := by simpa using pq
  simp [hq1]

theorem find?_append_new (ms : List (String × Module D P)) (id : String) (m : Module D P)
    (h : ms.any (fun p => p.1 == id) = false) :
    (((ms ++ [(id, m)]).find? (fun p => p.1 == id)).map (fun p => p.2)) = some m := by
  have hnone : ms.find? (fun p => p.1 == id) = none := by
    rw [List.find?_eq_none]
    intro x hx hpx
    have hany : ms.any (fun p => p.1 == id) = true := List.any_eq_true.mpr ⟨x, hx, hpx⟩
    rw [h] at hany
    exact Bool.false_ne_true hany
  rw [List.find?_append, hnone]
  simp [List.find?_cons]

/-- Registering under an id always makes getModule of that id return the
new instance, whether or not the id was present before. -/
theorem getModule_registerModule (mm : ModuleManager D P) (id : String) (m : Module D P) :
    (mm.registerModule id m).getModule id = some m := by
  unfold ModuleManager.registerModule ModuleManager.getModule
  by_cases h : mm.modules.any (fun p => p.1 == id) = true
  · simpa [h] using find?_map_replace mm.modules id m h
  · have h' : mm.modules.any (fun p => p.1 == id) = false := by
      cases hb : mm.modules.any (fun p => p.1 == id)
      · rfl
      · exact absurd hb h
    simpa [h'] using find?_append_new mm.modules id m h'

/-- The result record built for one module carries that module's id,
whichever branch was taken. -/
theorem execModule_moduleId (id : String) (m : Module D P) :
    (execModule id m).moduleId = id := by
  cases hm : m.runOutcome <;> simp [execModule, hm]

/-- The collected result list of the execution loop is the pointwise image
of the enabled list: the counters feed only the started events. -/
theorem execLoop_results (mods : List (String × Module D P)) (c t : Nat) :
    (execLoop mods c t).1 = mods.map (fun p => execModule p.1 p.2) := by
  induction mods generalizing c with
  | nil => rfl
  | cons hd tl ih => cases hd with | mk id m => simp [execLoop, ih]

/-- Result ids of a run, in order, equal the enabled ids in order. -/
theorem results_map_moduleId (mm : ModuleManager D P) :
    ((mm.executeEnabledModules).1).map JsResult.moduleId
      = (mm.getEnabledModules).map Prod.fst := by
  unfold ModuleManager.executeEnabledModules
  rw [execLoop_results, List.map_map]
  exact List.map_congr_left (fun p _ => execModule_moduleId p.1 p.2)

/-
Claim theorems.
-/

/-- C1: every run of executeEnabledModules returns exactly one Module
Result per enabled module, success or failure alike, and the order of
results equals the enablement order. -/
theorem c1_one_result_per_enabled_module (mm : ModuleManager D P) :
    ((mm.executeEnabledModules).1).map JsResult.moduleId
        = (mm.getEnabledModules).map Prod.fst
    ∧ ((mm.executeEnabledModules).1).length = (mm.getEnabledModules).length := by
  refine ⟨results_map_moduleId mm, ?_⟩
  have h := congrArg List.length (results_map_moduleId mm)
  simpa using h

/-- C4: the run loop is cancellation-agnostic. The cancelled flag of the
extraction job is read only inside the caller callbacks (which gate the
per-module downloads); the results returned by executeEnabledModules are
identical under any two cancellation schedules, and every enabled module
contributes its result regardless of the flag. -/
theorem c4_run_loop_cancellation_agnostic (mm : ModuleManager D P)
    (f g : Nat → Bool) :
    (startExtractionModel mm f).1 = (startExtractionModel mm g).1
    ∧ ((startExtractionModel mm f).1).map JsResult.moduleId
        = (mm.getEnabledModules).map Prod.fst := by
  exact ⟨rfl, results_map_moduleId mm⟩

/-- C9: registering twice under one id never fails and the second instance
wins: getModule returns the new instance, not the prior one. -/
theorem c9_reregister_replaces_instance (mm : ModuleManager D P) (id : String)
    (m1 m2 : Module D P) :
    ((mm.registerModule id m1).registerModule id m2).getModule id = some m2
    ∧ (m1 ≠ m2 →
        ((mm.registerModule id m1).registerModule id m2).getModule id ≠ some m1) := by
  refine ⟨getModule_registerModule _ id m2, fun hne hc => ?_⟩
  rw [getModule_registerModule _ id m2] at hc
  exact hne (Option.some.inj hc).symm

/-- C10: a failed module run yields a result whose structured payload is
exactly the error object for the thrown message and which carries no raw
data, while a successful run carries the raw data and the module
structured payload. -/
theorem c10_result_payload_shape (id : String) (m : Module D P) :
    (∀ e, m.runOutcome = Except.error e →
        (execModule id m).jsonPayload = JsonPayload.errorObj e
        ∧ (execModule id m).rawData = none
        ∧ (execModule id m).success = false)
    ∧ (∀ d, m.runOutcome = Except.ok d →
        (execModule id m).rawData = some d
        ∧ (execModule id m).success = true
        ∧ (execModule id m).jsonPayload = (match m.getJsonPayload with
            | some f => JsonPayload.payload (f d)
            | none => JsonPayload.raw d)) := by
  constructor
  · intro e he; simp [execModule, he]
  · intro d hd; simp [execModule, hd]

/-- Witness for C10: the shape facts hold at a concrete failing module and
at a concrete succeeding module. -/
theorem c10_result_payload_shape_witness :
    ((execModule "f" mFailW).jsonPayload = JsonPayload.errorObj "link not found"
      ∧ (execModule "f" mFailW).rawData = none
      ∧ (execModule "f" mFailW).success = false)
    ∧ ((execModule "o" mOkW).rawData = some ()
      ∧ (execModule "o" mOkW).success = true
      ∧ (execModule "o" mOkW).jsonPayload = JsonPayload.raw ()) :=
  ⟨(c10_result_payload_shape "f" mFailW).1 "link not found" rfl,
   (c10_result_payload_shape "o" mOkW).2 () rfl⟩

/-
Bound and pacing lemmas for the two health-check loops.
-/

theorem scrapeAttempts_stop_le (probe : Nat → Option HCData) :
    ∀ n a, a + n = MAX_SCRAPE_ATTEMPTS →
      (scrapeAttempts probe a).2.1 ≤ MAX_SCRAPE_ATTEMPTS := by
  intro n
  induction n with
  | zero =>
    intro a h
    rw [scrapeAttempts]
    cases hp : probe a with
    | none => simp; omega
    | some d =>
      by_cases he : hcErrorExit d = true
      · simp [he]; omega
      · have he' : hcErrorExit d = false := by
          cases hb : hcErrorExit d
          · rfl
          · exact absurd hb he
        by_cases hl : looksLikeNoData (some d) = false
        · simp [he', hl]; omega
        · have hl' : looksLikeNoData (some d) = true := by
            cases hb : looksLikeNoData (some d)
            · exact absurd hb hl
            · rfl
          simp [he', hl', show ¬a < MAX_SCRAPE_ATTEMPTS from by omega]
          omega
  | succ n ih =>
    intro a h
    have ha : a < MAX_SCRAPE_ATTEMPTS := by omega
    rw [scrapeAttempts]
    cases hp : probe a with
    | none => simp; omega
    | some d =>
      by_cases he : hcErrorExit d = true
      · simp [he]; omega
      · have he' : hcErrorExit d = false := by
          cases hb : hcErrorExit d
          · rfl
          · exact absurd hb he
        by_cases hl : looksLikeNoData (some d) = false
        · simp [he', hl]; omega
        · have hl' : looksLikeNoData (some d) = true := by
            cases hb : looksLikeNoData (some d)
            · exact absurd hb hl
            · rfl
          simp only [he', hl', Bool.false_eq_true, if_false, Bool.true_eq_false, dif_pos ha]
          exact ih (a + 1) (by omega)

theorem scrapeAttempts_waits_fixed (probe : Nat → Option HCData) :
    ∀ n a, a + n = MAX_SCRAPE_ATTEMPTS →
      ((scrapeAttempts probe a).2.2).all (fun w => w == RETRY_WAIT_MS) = true := by
  intro n
  induction n with
  | zero =>
    intro a h
    rw [scrapeAttempts]
    cases hp : probe a with
    | none => simp
    | some d =>
      by_cases he : hcErrorExit d = true
      · simp [he]
      · have he' : hcErrorExit d = false := by
          cases hb : hcErrorExit d
          · rfl
          · exact absurd hb he
        by_cases hl : looksLikeNoData (some d) = false
        · simp [he', hl]
        · have hl' : looksLikeNoData (some d) = true := by
            cases hb : looksLikeNoData (some d)
            · exact absurd hb hl
            · rfl
          simp [he', hl', show ¬a < MAX_SCRAPE_ATTEMPTS from by omega]
  | succ n ih =>
    intro a h
    have ha : a < MAX_SCRAPE_ATTEMPTS := by omega
    rw [scrapeAttempts]
    cases hp : probe a with
    | none => simp
    | some d =>
      by_cases he : hcErrorExit d = true
      · simp [he]
      · have he' : hcErrorExit d = false := by
          cases hb : hcErrorExit d
          · rfl
          · exact absurd hb he
        by_cases hl : looksLikeNoData (some d) = false
        · simp [he', hl]
        · have hl' : looksLikeNoData (some d) = true := by
            cases hb : looksLikeNoData (some d)
            · exact absurd hb hl
            · rfl
          simp only [he', hl', Bool.false_eq_true, if_false, Bool.true_eq_false, dif_pos ha]
          have := ih (a + 1) (by omega)
          simpa using this

theorem tableCheckLoop_count_le (ready : Nat → Bool) :
    ∀ n rc, rc + n = MAX_TABLE_RETRIES →
      (tableCheckLoop ready rc).2.1 ≤ MAX_TABLE_RETRIES := by
  intro n
  induction n with
  | zero =>
    intro rc h
    rw [tableCheckLoop, dif_neg (by omega)]
    simp; omega
  | succ n ih =>
    intro rc h
    have hrc : rc < MAX_TABLE_RETRIES := by omega
    rw [tableCheckLoop, dif_pos hrc]
    by_cases hr : ready (rc + 1) = true
    · simp [hr]; omega
    · have hr' : ready (rc + 1) = false := by
        cases hb : ready (rc + 1)
        · rfl
        · exact absurd hb hr
      by_cases h2 : rc + 1 < MAX_TABLE_RETRIES
      · simp only [hr', Bool.false_eq_true, if_false, if_pos h2]
        exact ih (rc + 1) (by omega)
      · simp only [hr', Bool.false_eq_true, if_false, if_neg h2]
        omega

theorem tableCheckLoop_waits_fixed (ready : Nat → Bool) :
    ∀ n rc, rc + n = MAX_TABLE_RETRIES →
      ((tableCheckLoop ready rc).2.2).all (fun w => w == TABLE_RETRY_WAIT_MS) = true := by
  intro n
  induction n with
  | zero =>
    intro rc h
    rw [tableCheckLoop, dif_neg (by omega)]
    rfl
  | succ n ih =>
    intro rc h
    have hrc : rc < MAX_TABLE_RETRIES := by omega
    rw [tableCheckLoop, dif_pos hrc]
    by_cases hr : ready (rc + 1) = true
    · simp [hr]
    · have hr' : ready (rc + 1) = false := by
        cases hb : ready (rc + 1)
        · rfl
        · exact absurd hb hr
      by_cases h2 : rc + 1 < MAX_TABLE_RETRIES
      · simp only [hr', Bool.false_eq_true, if_false, if_pos h2]
        have := ih (rc + 1) (by omega)
        simpa using this
      · simp only [hr', Bool.false_eq_true, if_false, if_neg h2]
        rfl

/-- C7: the step 5 scrape-with-retry loop stops within 3 attempts, waits a
fixed 10 seconds between attempts, returns immediately without retrying
when the first attempt does not match the no-data heuristic, and after
exhausting all attempts on no-data results resolves with the last data
instead of raising. -/
theorem c7_scrape_with_retry (probe : Nat → Option HCData) (d1 d2 d3 : HCData) :
    (scrapeAttempts probe 1).2.1 ≤ MAX_SCRAPE_ATTEMPTS
    ∧ ((scrapeAttempts probe 1).2.2).all (fun w => w == RETRY_WAIT_MS) = true
    ∧ (probe 1 = some d1 → hcErrorExit d1 = false →
        looksLikeNoData (some d1) = false →
        scrapeAttempts probe 1 = (Except.ok d1, 1, []))
    ∧ (probe 1 = some d1 → probe 2 = some d2 → probe 3 = some d3 →
        hcErrorExit d1 = false → hcErrorExit d2 = false → hcErrorExit d3 = false →
        looksLikeNoData (some d1) = true → looksLikeNoData (some d2) = true →
        looksLikeNoData (some d3) = true →
        scrapeAttempts probe 1 = (Except.ok d3, 3, [RETRY_WAIT_MS, RETRY_WAIT_MS])) := by
  refine ⟨scrapeAttempts_stop_le probe 2 1 rfl,
          scrapeAttempts_waits_fixed probe 2 1 rfl, ?_, ?_⟩
  · intro hp1 he1 hl1
    rw [scrapeAttempts]
    simp [hp1, he1, hl1]
  · intro hp1 hp2 hp3 he1 he2 he3 hl1 hl2 hl3
    have h3 : scrapeAttempts probe 3 = (Except.ok d3, 3, []) := by
      rw [scrapeAttempts]
      simp [hp3, he3, hl3, MAX_SCRAPE_ATTEMPTS]
    have h2 : scrapeAttempts probe 2 = (Except.ok d3, 3, [RETRY_WAIT_MS]) := by
      rw [scrapeAttempts]
      simp [hp2, he2, hl2, h3, MAX_SCRAPE_ATTEMPTS]
    rw [scrapeAttempts]
    simp [hp1, he1, hl1, h2, MAX_SCRAPE_ATTEMPTS]

/-- Witness for C7 at the constant no-data probe: three attempts, two
10-second waits, and a resolved (not rejected) outcome. -/
theorem c7_scrape_with_retry_witness :
    scrapeAttempts (fun _ => some hcNoDataW) 1
      = (Except.ok hcNoDataW, 3, [RETRY_WAIT_MS, RETRY_WAIT_MS]) :=
  (c7_scrape_with_retry (fun _ => some hcNoDataW) hcNoDataW hcNoDataW hcNoDataW).2.2.2
    rfl rfl rfl (by decide) (by decide) (by decide)
    (by decide) (by decide) (by decide)

/-- C8: the readiness polling loop checks for the expected table signature
at most 6 times at a fixed 5-second interval, and its outcome has no
influence on the scrape result: even when the tables are never found the
module scrapes whatever is present, so a readiness timeout alone never
fails the module. -/
theorem c8_readiness_polling_bounded (ready : Nat → Bool)
    (probe : Nat → Option HCData) :
    (tableCheckLoop ready 0).2.1 ≤ MAX_TABLE_RETRIES
    ∧ ((tableCheckLoop ready 0).2.2).all (fun w => w == TABLE_RETRY_WAIT_MS) = true
    ∧ (healthCheckScrape ready probe).1 = (scrapeAttempts probe 1).1
    ∧ (healthCheckScrape ready probe).1
        = (healthCheckScrape (fun _ => false) probe).1 :=
  ⟨tableCheckLoop_count_le ready 6 0 rfl,
   tableCheckLoop_waits_fixed ready 6 0 rfl, rfl, rfl⟩

/-- C6 counterexample: the registered sensitive-data module inherits the
base name-derived filename, which carries no ordinal prefix. -/
theorem c6_counterexample_sensitive_data_filename :
    ("sensitive-data", SensitiveDataModule.getFilename) ∈ registeredModuleFilenames
    ∧ SensitiveDataModule.getFilename = "sensitive-data"
    ∧ startsWithOrdinal SensitiveDataModule.getFilename = false := by
  refine ⟨?_, by decide, by decide⟩
  simp [registeredModuleFilenames]

/-- C6 amended: every registered module getFilename is a constant string;
eight of the nine carry the fixed ordinal prefixes 1_licenses through
8_login_history, while sensitive-data (which does not override
getFilename) yields the non-ordinal base-derived name sensitive-data. -/
theorem c6_registered_filenames :
    registeredModuleFilenames =
      [("licenses", "1_licenses"), ("profiles", "2_profiles"),
       ("general-info", "3_general_info"), ("health-check", "4_health_check"),
       ("storage", "5_storage"), ("sandboxes", "6_sandboxes"),
       ("sharing-settings", "7_sharing_settings"),
       ("sensitive-data", "sensitive-data"), ("login-history", "8_login_history")]
    ∧ registeredModuleFilenames.all
        (fun p => startsWithOrdinal p.2 || (p.1 == "sensitive-data")) = true := by
  constructor
  · decide
  · decide

/-- Two health-check reports over the same raw data are byte-identical
exactly when the interpolated clock readings are identical: everything
after the Generated line depends only on the raw data. -/
theorem hc_formatData_clock_iff (now1 now2 : String) (data : HCData) :
    HealthCheckModule.formatData now1 data = HealthCheckModule.formatData now2 data
      ↔ now1 = now2 := by
  constructor
  · intro h
    unfold HealthCheckModule.formatData at h
    have hd := congrArg String.data h
    simp only [String.data_append] at hd
    have h5 : now1.data = now2.data := by
      have h3 := List.append_cancel_right (List.append_cancel_right
        (List.append_cancel_right (List.append_cancel_right
          (List.append_cancel_right (List.append_cancel_right hd)))))
      exact List.append_cancel_left h3
    cases now1
    cases now2
    exact congrArg String.mk h5
  · intro h
    rw [h]

/-- C5 counterexample: HealthCheckModule.formatData reads the wall clock,
so two calls on the same raw data made at different clock readings give
different bytes; it is not a pure function of the raw data. -/
theorem c5_counterexample_formatData_reads_clock :
    HealthCheckModule.formatData "6/1/2025, 10:00:00 AM" hcNoDataW
      ≠ HealthCheckModule.formatData "6/1/2025, 10:00:01 AM" hcNoDataW := by
  intro h
  have heq := (hc_formatData_clock_iff "6/1/2025, 10:00:00 AM"
    "6/1/2025, 10:00:01 AM" hcNoDataW).mp h
  exact absurd heq (by decide)

/-- C5 amended: formatData output is determined by the raw data together
with the generation-clock reading, and by nothing else; two calls with
equal clock readings on the same raw data are byte-identical, and the
reports differ as soon as the clock readings differ. The embedding of
formatData is a total function, so no exception arises. -/
theorem c5_formatData_pure_given_clock (now1 now2 : String) (data : HCData) :
    HealthCheckModule.formatData now1 data = HealthCheckModule.formatData now2 data
      ↔ now1 = now2 :=
  hc_formatData_clock_iff now1 now2 data

/-
Machinery for the enable-then-read property of the registry.
-/

theorem find?_setEnabled (ms : List (String × Module D P)) (id j : String) (b : Bool) :
    (ModuleManager.setEnabled ms id b).find? (fun p => p.1 == j)
      = (ms.find? (fun p => p.1 == j)).map
          (fun p => if p.1 == id then (p.1, { p.2 with isEnabled := b }) else p) := by
  have hfun : ((fun p : String × Module D P => p.1 == j)
        ∘ (fun p : String × Module D P =>
            if p.1 == id then (p.1, { p.2 with isEnabled := b }) else p))
      = (fun p : String × Module D P => p.1 == j) := by
    funext p
    by_cases hp : p.1 = id
    · simp [hp]
    · simp [hp]
  rw [ModuleManager.setEnabled, List.find?_map, hfun]

theorem find?_disableAll (ms : List (String × Module D P)) (j : String) :
    (ModuleManager.disableAll ms).find? (fun p => p.1 == j)
      = (ms.find? (fun p => p.1 == j)).map
          (fun p => (p.1, { p.2 with isEnabled := false })) := by
  have hfun : ((fun p : String × Module D P => p.1 == j)
        ∘ (fun p : String × Module D P => (p.1, { p.2 with isEnabled := false })))
      = (fun p : String × Module D P => p.1 == j) := rfl
  rw [ModuleManager.disableAll, List.find?_map, hfun]

/-- One enable step neither adds nor removes stored ids. -/
theorem enableStep_presence (mm : ModuleManager D P) (id j : String) :
    ((mm.enableStep id).modules.find? (fun p => p.1 == j)).isSome
      = (mm.modules.find? (fun p => p.1 == j)).isSome := by
  unfold ModuleManager.enableStep
  cases hf : mm.modules.find? (fun p => p.1 == id) with
  | none => rfl
  | some q => simp [find?_setEnabled]

/-- One enable step keeps every previously enabled execution-order id
enabled, and an id it appends comes out enabled as well. -/
theorem enableStep_inv (mm : ModuleManager D P) (id : String) (h : enabledInv mm) :
    enabledInv (mm.enableStep id) := by
  unfold ModuleManager.enableStep
  cases hf : mm.modules.find? (fun p => p.1 == id) with
  | none => exact h
  | some q =>
    intro j hj
    simp only at hj
    rw [find?_setEnabled]
    rcases List.mem_append.mp hj with hj1 | hj2
    · obtain ⟨p, hp, hen⟩ := h j hj1
      rw [hp]
      by_cases hpid : p.1 = id
      · exact ⟨_, rfl, by simp [hpid]⟩
      · exact ⟨p, by simp [hpid], hen⟩
    · have hjid : j = id := by simpa using hj2
      subst hjid
      rw [hf]
      have hq1 : q.1 = j := by
        have := List.find?_some hf
        simpa using this
      exact ⟨_, rfl, by simp [hq1]⟩

/-- Full specification of the enable fold: the resulting executionOrder is
the input filtered to stored ids, the enabled invariant holds afterwards,
and the stored-id set is unchanged. -/
theorem enableFold_spec (ids : List String) :
    ∀ (mm : ModuleManager D P), enabledInv mm →
      (ids.foldl ModuleManager.enableStep mm).executionOrder
          = mm.executionOrder
            ++ ids.filter (fun id => (mm.modules.find? (fun p => p.1 == id)).isSome)
      ∧ enabledInv (ids.foldl ModuleManager.enableStep mm)
      ∧ ∀ j, ((ids.foldl ModuleManager.enableStep mm).modules.find?
            (fun p => p.1 == j)).isSome
          = (mm.modules.find? (fun p => p.1 == j)).isSome := by
  induction ids with
  | nil => exact fun mm h => ⟨by simp, h, fun j => rfl⟩
  | cons id rest ih =>
    intro mm h
    obtain ⟨h1, h2, h3⟩ := ih (mm.enableStep id) (enableStep_inv mm id h)
    have hfiltcong : rest.filter
          (fun i => (((mm.enableStep id).modules.find? (fun p => p.1 == i)).isSome : Bool))
        = rest.filter (fun i => ((mm.modules.find? (fun p => p.1 == i)).isSome : Bool)) :=
      List.filter_congr (fun i _ => enableStep_presence mm id i)
    refine ⟨?_, h2, fun j => (h3 j).trans (enableStep_presence mm id j)⟩
    rw [List.foldl_cons, h1, hfiltcong, List.filter_cons]
    cases hf : mm.modules.find? (fun p => p.1 == id) with
    | none =>
      have hstep : mm.enableStep id = mm := by
        unfold ModuleManager.enableStep
        rw [hf]
      rw [hstep]
      simp [hf]
    | some q =>
      have hstep : (mm.enableStep id).executionOrder = mm.executionOrder ++ [id] := by
        unfold ModuleManager.enableStep
        rw [hf]
      rw [hstep]
      simp [hf]

/-- When every execution-order id resolves to an enabled stored module,
getEnabledModules keeps all of them and only pairs each with its module. -/
theorem filterMap_fst_of_inv (ms : List (String × Module D P)) :
    ∀ (l : List String),
      (∀ j ∈ l, ∃ q, ms.find? (fun p => p.1 == j) = some q ∧ q.2.isEnabled = true) →
      (l.filterMap (fun id =>
          match ms.find? (fun p => p.1 == id) with
          | some p => if p.2.isEnabled then some (id, p.2) else none
          | none => none)).map Prod.fst = l := by
  intro l
  induction l with
  | nil => intro _; rfl
  | cons j rest ih =>
    intro h
    obtain ⟨q, hq, hen⟩ := h j (by simp)
    rw [List.filterMap_cons]
    simp only [hq, hen, if_true]
    simpa using ih (fun x hx => h x (by simp [hx]))

theorem getEnabled_fst_of_inv (mm : ModuleManager D P) (h : enabledInv mm) :
    (mm.getEnabledModules).map Prod.fst = mm.executionOrder := by
  unfold ModuleManager.getEnabledModules
  exact filterMap_fst_of_inv mm.modules mm.executionOrder h

/-- C3: enableModules with an ordered id list followed by
getEnabledModules returns exactly that list filtered to ids registered in
the registry, in order, introducing no duplicates; unknown ids are
dropped without failing. -/
theorem c3_enable_then_getEnabled (mm : ModuleManager D P) (ids : List String)
    (hne : ids ≠ []) :
    ((mm.enableModules ids).getEnabledModules).map Prod.fst
      = ids.filter (fun id => (mm.getModule id).isSome) := by
  unfold ModuleManager.enableModules
  have hstartinv : enabledInv
      (⟨ModuleManager.disableAll mm.modules, []⟩ : ModuleManager D P) :=
    fun j hj => absurd hj (List.not_mem_nil j)
  obtain ⟨h1, h2, _⟩ := enableFold_spec ids _ hstartinv
  rw [getEnabled_fst_of_inv _ h2, h1]
  simp only [List.nil_append]
  apply List.filter_congr
  intro i _
  rw [find?_disableAll]
  simp [ModuleManager.getModule]

/-- Witness for C3 at a concrete non-empty id list containing one known
and one unknown id. -/
theorem c3_enable_then_getEnabled_witness :
    ((mmW3.enableModules ["licenses", "mistyped"]).getEnabledModules).map Prod.fst
      = ["licenses", "mistyped"].filter (fun id => (mmW3.getModule id).isSome) :=
  c3_enable_then_getEnabled mmW3 ["licenses", "mistyped"] (List.cons_ne_nil _ _)

/-- C2: when a module run throws in initialize, validate or scrape (or
validate returns invalid), that module result has success false, error
equal to the thrown message (non-empty whenever the thrown message is) and
formatted payload the literal Error: message; every other enabled module
still executes and its result equals the result it produces standalone. -/
theorem c2_module_failure_contained (mm : ModuleManager D P)
    (pre post : List (String × Module D P)) (id : String) (m : Module D P)
    (msg : String)
    (hE : mm.getEnabledModules = pre ++ (id, m) :: post)
    (hm : m.runOutcome = Except.error msg) (hne : msg ≠ "") :
    (mm.executeEnabledModules).1
        = pre.map (fun p => execModule p.1 p.2)
          ++ execModule id m :: post.map (fun p => execModule p.1 p.2)
    ∧ (execModule id m).success = false
    ∧ (execModule id m).error = some msg
    ∧ (execModule id m).error ≠ some ""
    ∧ (execModule id m).data = "Error: " ++ msg := by
  refine ⟨?_, ?_, ?_, ?_, ?_⟩
  · unfold ModuleManager.executeEnabledModules
    rw [execLoop_results, hE]
    simp
  · simp [execModule, hm]
  · simp [execModule, hm]
  · simp [execModule, hm]
    exact hne
  · simp [execModule, hm]

/-- Witness for C2: in the concrete two-module run the failing module
produces the contained failure result and the sibling keeps its
standalone result. -/
theorem c2_module_failure_contained_witness :
    (mmW2.executeEnabledModules).1
        = [("ok", mOkW)].map (fun p => execModule p.1 p.2)
          ++ execModule "fail" mFailW
            :: ([] : List (String × Module Unit Unit)).map (fun p => execModule p.1 p.2)
    ∧ (execModule "fail" mFailW).success = false
    ∧ (execModule "fail" mFailW).error = some "link not found"
    ∧ (execModule "fail" mFailW).error ≠ some ""
    ∧ (execModule "fail" mFailW).data = "Error: " ++ "link not found" :=
  c2_module_failure_contained mmW2 [("ok", mOkW)] [] "fail" mFailW "link not found"
    rfl rfl (by decide)

/-- Witness for C9: overwrite at a concrete registry with two distinct
concrete modules. -/
theorem c9_reregister_replaces_instance_witness :
    (((⟨[], []⟩ : ModuleManager Unit Unit).registerModule "m" mOkW).registerModule
        "m" mFailW).getModule "m" = some mFailW
    ∧ (((⟨[], []⟩ : ModuleManager Unit Unit).registerModule "m" mOkW).registerModule
        "m" mFailW).getModule "m" ≠ some mOkW :=
  ⟨(c9_reregister_replaces_instance ⟨[], []⟩ "m" mOkW mFailW).1,
   (c9_reregister_replaces_instance ⟨[], []⟩ "m" mOkW mFailW).2 (by
      intro hc
      have hn := congrArg Module.name hc
      exact absurd hn (by decide))⟩

end Scraper
